import Mathlib

/-!
Shallow embedding of the industrial-IoT DAQ pipeline
(`src/daq_system/main.py`, `src/daq_system/opc_client.py`,
defaults from `src/daq_system/config.py`).

Python floats are modelled as rationals (`ℚ`); all constants appearing in
the code (5.0, 0.3, 0.5, 1.5, 2.0, 0.1, thresholds, the concrete test
values) are exactly representable in binary floating point, so the ℚ
model agrees with the float computation on every input used below.
Timestamps are carried as opaque integers; wall-clock fields that the
code only uses for logging (`processed_at`, formatted description
strings) are not modelled.
-/

namespace DAQ

/-- A sensor reading, mirroring the dict produced by
`IndustrialOPCClient.read_sensor_data` plus the optional annotation
fields added by `validate_readings` and `process_readings`. -/
structure Reading where
  timestamp : ℤ
  machine_id : String
  sensor_type : String
  location : String
  value : ℚ
  unit : String
  quality : ℤ
  status : String
  anomaly : Option String := none
  moving_average : Option ℚ := none
  deviation_from_avg : Option ℚ := none
  high_deviation : Bool := false
  processing_version : Option String := none
  daq_system_id : Option String := none
  deriving DecidableEq, Repr

/-- The DAQ-relevant part of `DAQConfig` in `config.py`. -/
structure DAQConfig where
  batch_size : ℕ
  max_buffer_size : ℕ
  min_quality_threshold : ℤ
  temperature_min : ℚ
  temperature_max : ℚ
  pressure_min : ℚ
  pressure_max : ℚ
  vibration_max : ℚ
  deriving DecidableEq, Repr

/-- The default values of `DAQConfig` in `config.py`. -/
def defaultDAQConfig : DAQConfig :=
  { batch_size := 10
    max_buffer_size := 1000
    min_quality_threshold := 80
    temperature_min := 18
    temperature_max := 40
    pressure_min := 9/10
    pressure_max := 2
    vibration_max := 5/2 }

/-- One iteration of the loop body of
`IndustrialDAQSystem.validate_readings`: `none` means the reading is
dropped (`continue`), `some` is the (possibly annotated) reading that is
appended to the validated list. -/
def validateReading (cfg : DAQConfig) (r : Reading) : Option Reading :=
  if r.quality < cfg.min_quality_threshold then
    none
  else if r.sensor_type = "temperature" then
    if ¬ (cfg.temperature_min ≤ r.value ∧ r.value ≤ cfg.temperature_max) then
      some { r with anomaly := some "OUT_OF_RANGE" }
    else
      some r
  else if r.sensor_type = "pressure" then
    if ¬ (cfg.pressure_min ≤ r.value ∧ r.value ≤ cfg.pressure_max) then
      some { r with anomaly := some "OUT_OF_RANGE" }
    else
      some r
  else if r.sensor_type = "vibration" then
    if cfg.vibration_max < r.value then
      some { r with anomaly := some "HIGH_VIBRATION" }
    else
      some r
  else
    some r

/-- `IndustrialDAQSystem.validate_readings`. -/
def validate_readings (cfg : DAQConfig) (readings : List Reading) : List Reading :=
  readings.filterMap (validateReading cfg)

/-- The values of all history entries of a given sensor type, in order
(the list comprehension filtering `data_history` in
`calculate_moving_average` and `_detect_rapid_change`). -/
def sensorHistoryValues (history : List Reading) (sensor_type : String) : List ℚ :=
  (history.filter (fun p => p.sensor_type = sensor_type)).map (fun p => p.value)

/-- Python slicing `l[-n:]` for `n ≥ 1`: the last `n` elements
(the whole list when it is shorter than `n`). -/
def lastN (n : ℕ) (l : List ℚ) : List ℚ :=
  l.drop (l.length - n)

/-- `IndustrialDAQSystem.calculate_moving_average`. -/
def calculate_moving_average (history : List Reading) (sensor_type : String)
    (current_value : ℚ) (window : ℕ := 5) : ℚ :=
  let sensor_history := sensorHistoryValues history sensor_type ++ [current_value]
  let recent_values := lastN window sensor_history
  if recent_values.length ≠ 0 then
    recent_values.sum / (recent_values.length : ℚ)
  else
    current_value

/-- The body of the `try` block of the `process_readings` loop: copy the
reading, attach the moving average, and when the moving average is
truthy (nonzero), the deviation and the `high_deviation` flag. -/
def enrichReading (history : List Reading) (r : Reading) : Reading :=
  let moving_avg := calculate_moving_average history r.sensor_type r.value
  let r1 := { r with moving_average := some moving_avg }
  let r2 :=
    if moving_avg ≠ 0 then
      let deviation := |r.value - moving_avg|
      let r3 := { r1 with deviation_from_avg := some deviation }
      if deviation > moving_avg * (1/10) then
        { r3 with high_deviation := true }
      else
        r3
    else
      r1
  { r2 with processing_version := some "1.0", daq_system_id := some "DAQ_001" }

/-- The loop of `IndustrialDAQSystem.process_readings`. The oracle `ok`
says for each position whether the per-reading enrichment runs to
completion; `ok i = false` models the `except` branch, which appends the
original reading unchanged. -/
def processLoop (history : List Reading) (ok : ℕ → Bool) :
    ℕ → List Reading → List Reading
  | _, [] => []
  | i, r :: rs =>
    (if ok i then enrichReading history r else r) :: processLoop history ok (i + 1) rs

/-- Trimming of `data_history` to the most recent 1000 entries at the
end of `process_readings`. -/
def trimHistory (l : List Reading) : List Reading :=
  if l.length > 1000 then l.drop (l.length - 1000) else l

/-- `IndustrialDAQSystem.process_readings`: returns the processed list
and the updated `data_history` (the input history extended with the
processed readings, trimmed to 1000). -/
def process_readings (history : List Reading) (ok : ℕ → Bool)
    (readings : List Reading) : List Reading × List Reading :=
  let processed := processLoop history ok 0 readings
  (processed, trimHistory (history ++ processed))

/-- The per-type rapid-change thresholds of `_detect_rapid_change`
(`thresholds.get(sensor_type, 1.0)`). -/
def rapidChangeThreshold (sensor_type : String) : ℚ :=
  if sensor_type = "temperature" then 5
  else if sensor_type = "pressure" then 3/10
  else if sensor_type = "vibration" then 1/2
  else 1

/-- `IndustrialDAQSystem._detect_rapid_change`. The source returns a
formatted description string or `None`; only its truthiness and the
embedded change rate matter downstream, so the model returns the change
rate. -/
def detect_rapid_change (data_history : List Reading) (r : Reading) : Option ℚ :=
  let previous_values :=
    sensorHistoryValues (data_history.drop (data_history.length - 10)) r.sensor_type
  if 2 ≤ previous_values.length then
    match previous_values.getLast? with
    | some last_value =>
      let change_rate := |r.value - last_value|
      if change_rate > rapidChangeThreshold r.sensor_type then some change_rate
      else none
    | none => none
  else none

/-- An anomaly record as built by `detect_anomalies`. The free-text
`description` field (log formatting only) is not modelled. -/
structure Anomaly where
  timestamp : ℤ
  machine_id : String
  sensor_type : String
  value : ℚ
  anomaly_type : String
  severity : String
  deriving DecidableEq, Repr

/-- `IndustrialDAQSystem._calculate_severity`. -/
def calculate_severity (r : Reading) : String :=
  let anomaly_type := r.anomaly.getD ""
  if anomaly_type = "OUT_OF_RANGE" then
    if r.sensor_type = "temperature" then
      if r.value > 35 ∨ r.value < 20 then "HIGH" else "MEDIUM"
    else if r.sensor_type = "pressure" then
      if r.value > 9/5 ∨ r.value < 1 then "HIGH" else "MEDIUM"
    else
      "LOW"
  else if anomaly_type = "HIGH_VIBRATION" then
    if r.value > 2 then "CRITICAL" else "HIGH"
  else
    "LOW"

/-- The anomaly records one reading contributes in the `detect_anomalies`
loop: the validation tag (if any), then `HIGH_DEVIATION`, then
`RAPID_CHANGE`. The `anomaly` tags written by validation are the
nonempty strings OUT_OF_RANGE and HIGH_VIBRATION, so matching on the
option mirrors Python truthiness. -/
def anomaliesFor (data_history : List Reading) (r : Reading) : List Anomaly :=
  (match r.anomaly with
   | some tag =>
     [{ timestamp := r.timestamp, machine_id := r.machine_id,
        sensor_type := r.sensor_type, value := r.value,
        anomaly_type := tag, severity := calculate_severity r }]
   | none => []) ++
  (if r.high_deviation then
     [{ timestamp := r.timestamp, machine_id := r.machine_id,
        sensor_type := r.sensor_type, value := r.value,
        anomaly_type := "HIGH_DEVIATION", severity := "MEDIUM" }]
   else []) ++
  (match detect_rapid_change data_history r with
   | some _ =>
     [{ timestamp := r.timestamp, machine_id := r.machine_id,
        sensor_type := r.sensor_type, value := r.value,
        anomaly_type := "RAPID_CHANGE", severity := "HIGH" }]
   | none => [])

/-- `IndustrialDAQSystem.detect_anomalies` over a fixed `data_history`. -/
def detect_anomalies (data_history : List Reading) (readings : List Reading) :
    List Anomaly :=
  readings.flatMap (anomaliesFor data_history)

/-- Steps 2–4 of `IndustrialDAQSystem.acquisition_cycle` in order:
validation, then `process_readings` (which extends `data_history` with
the processed readings), then `detect_anomalies` on the *updated*
history — exactly the call order of the source. -/
def cycleDetect (cfg : DAQConfig) (history : List Reading)
    (readings : List Reading) : List Anomaly :=
  let validated := validate_readings cfg readings
  let step := process_readings history (fun _ => true) validated
  detect_anomalies step.2 step.1

/-- The success value returned by `IndustrialDAQSystem.acquisition_cycle`
as a function of what happened inside the cycle: `False` when nothing
was read, `False` when validation rejected everything, otherwise the
storage outcome. -/
def acquisition_cycle_success (cfg : DAQConfig) (readings : List Reading)
    (storage_success : Bool) : Bool :=
  if readings = [] then false
  else if validate_readings cfg readings = [] then false
  else storage_success

/-- `max_consecutive_failures` in `IndustrialDAQSystem.run`. -/
def max_consecutive_failures : ℕ := 5

/-- The outcome of one non-paused iteration of the `run` loop on the
failure counter: the new counter value and how many seconds of cooldown
sleep the iteration performed (the unconditional
`sleep(acquisition_interval)` at the end of every iteration is not
counted here). -/
structure RunStep where
  consecutive_failures : ℕ
  cooldown_sleep : ℚ
  deriving DecidableEq, Repr

/-- One iteration of the failure governor in `IndustrialDAQSystem.run`:
on success reset the counter; on failure increment it, and when it
reaches `max_consecutive_failures` sleep 30 s and reset it. -/
def runIteration (consecutive_failures : ℕ) (cycle_success : Bool) : RunStep :=
  if cycle_success then
    { consecutive_failures := 0, cooldown_sleep := 0 }
  else
    let f := consecutive_failures + 1
    if max_consecutive_failures ≤ f then
      { consecutive_failures := 0, cooldown_sleep := 30 }
    else
      { consecutive_failures := f, cooldown_sleep := 0 }

/-- Result of one `IndustrialOPCClient.store_readings` call: the new
`data_buffer`, the returned boolean, and whether a batch insert was
attempted during the call. -/
structure StoreResult where
  buffer : List Reading
  ok : Bool
  flushed : Bool
  deriving DecidableEq, Repr

/-- The overflow eviction in the failed-flush branch of `store_readings`:
`self.data_buffer = self.data_buffer[overflow:]` with
`overflow = len - max_buffer_size`, i.e. keep the newest
`max_buffer_size` entries. -/
def dropOverflow (cfg : DAQConfig) (l : List Reading) : List Reading :=
  if l.length > cfg.max_buffer_size then l.drop (l.length - cfg.max_buffer_size)
  else l

/-- `IndustrialOPCClient.store_readings`. `insertedCount` is the value
returned by `sensor_db.insert_batch_readings` when a flush is attempted
(that function catches its own exceptions and returns 0 on failure, so
the outer `except` branch of `store_readings` is unreachable through
it). -/
def store_readings (cfg : DAQConfig) (insertedCount : ℕ)
    (data_buffer : List Reading) (readings : List Reading) : StoreResult :=
  if readings = [] then
    { buffer := data_buffer, ok := true, flushed := false }
  else
    let buf := data_buffer ++ readings
    if cfg.batch_size ≤ buf.length then
      if 0 < insertedCount then
        { buffer := [], ok := true, flushed := true }
      else
        { buffer := dropOverflow cfg buf, ok := false, flushed := true }
    else
      { buffer := buf, ok := true, flushed := false }

/-- A sequence of `store_readings` calls starting from an empty buffer;
each call is a pair of the batch-insert outcome it would see and the
readings it stores. -/
def runStore (cfg : DAQConfig) (calls : List (ℕ × List Reading)) : List Reading :=
  calls.foldl (fun buf c => (store_readings cfg c.1 buf c.2).buffer) []

/-- `max_retries` in `IndustrialOPCClient.connect`. -/
def max_retries : ℕ := 5

/-- The `for attempt in range(max_retries)` loop of `connect`, carrying
the current `retry_delay` and the delays slept so far. `succeeds k`
tells whether the k-th (0-based) connection attempt succeeds. Returns
(result, attempts made, delays slept in order). -/
def connectGo (succeeds : ℕ → Bool) :
    ℕ → ℕ → ℚ → List ℚ → Bool × ℕ × List ℚ
  | 0, attempt, _, delays => (false, attempt, delays)
  | remaining + 1, attempt, retry_delay, delays =>
    if succeeds attempt then (true, attempt + 1, delays)
    else if remaining = 0 then (false, attempt + 1, delays)
    else connectGo succeeds remaining (attempt + 1) (retry_delay * (3/2))
      (delays ++ [retry_delay])

/-- `IndustrialOPCClient.connect`: up to `max_retries` attempts, initial
`retry_delay` 2.0, multiplied by 1.5 after each failure that is not the
last attempt. -/
def connect (succeeds : ℕ → Bool) : Bool × ℕ × List ℚ :=
  connectGo succeeds max_retries 0 2 []

/-- The full backoff-delay schedule 2.0, 3.0, 4.5, 6.75 (what a run that
fails all five attempts sleeps). -/
def backoffDelays : List ℚ := [2, 3, 9/2, 27/4]

/-- The counters of `IndustrialOPCClient.stats` used by
`get_statistics`. -/
structure OPCStats where
  total_readings : ℕ
  successful_readings : ℕ
  deriving DecidableEq, Repr

/-- The `success_rate` field computed by
`IndustrialOPCClient.get_statistics`: 0 unless `total_readings > 0`. -/
def get_statistics_success_rate (s : OPCStats) : ℚ :=
  if 0 < s.total_readings then
    ((s.successful_readings : ℚ) / (s.total_readings : ℚ)) * 100
  else 0

/-- The counters of `IndustrialDAQSystem.stats` used by
`get_detailed_statistics`. -/
structure DAQStats where
  total_cycles : ℕ
  successful_cycles : ℕ
  deriving DecidableEq, Repr

/-- The `success_rate` field computed by
`IndustrialDAQSystem.get_detailed_statistics`: 0 unless
`total_cycles > 0`. -/
def get_detailed_statistics_success_rate (s : DAQStats) : ℚ :=
  if 0 < s.total_cycles then
    ((s.successful_cycles : ℚ) / (s.total_cycles : ℚ)) * 100
  else 0

/-- A plain reading as produced by `read_sensor_data`, for concrete
instances. -/
def mkReading (sensor_type : String) (value : ℚ) (quality : ℤ) : Reading :=
  { timestamp := 0
    machine_id := "MACHINE_001"
    sensor_type := sensor_type
    location := "Plant_A_Line_1"
    value := value
    unit := "°C"
    quality := quality
    status := "OK" }

/-- The temperature history of the spec's moving-average example:
values 20, 22, 24, 23, 25. -/
def historyC8 : List Reading :=
  [mkReading "temperature" 20 100, mkReading "temperature" 22 100,
   mkReading "temperature" 24 100, mkReading "temperature" 23 100,
   mkReading "temperature" 25 100]

/-- A reading accepted by `validateReading` keeps its quality, and that
quality passed the gate. -/
theorem validateReading_quality {cfg : DAQConfig} {a r : Reading}
    (h : validateReading cfg a = some r) :
    cfg.min_quality_threshold ≤ r.quality ∧ r.quality = a.quality := by
  unfold validateReading at h
  by_cases hq : a.quality < cfg.min_quality_threshold
  · rw [if_pos hq] at h
    exact absurd h (by simp)
  · have hq2 : cfg.min_quality_threshold ≤ a.quality := not_lt.mp hq
    rw [if_neg hq] at h
    split at h
    · split at h <;>
        (simp only [Option.some.injEq] at h; subst h; exact ⟨hq2, rfl⟩)
    · split at h
      · split at h <;>
          (simp only [Option.some.injEq] at h; subst h; exact ⟨hq2, rfl⟩)
      · split at h
        · split at h <;>
            (simp only [Option.some.injEq] at h; subst h; exact ⟨hq2, rfl⟩)
        · simp only [Option.some.injEq] at h; subst h; exact ⟨hq2, rfl⟩

/-- C2: for every input list, a reading whose quality is strictly below
`min_quality_threshold` is absent from the list returned by
`validate_readings`, and every reading of the returned list has quality
at least the threshold. -/
theorem quality_gate_drops_low_quality (cfg : DAQConfig)
    (readings : List Reading) :
    (∀ r ∈ validate_readings cfg readings,
       cfg.min_quality_threshold ≤ r.quality) ∧
    (∀ r : Reading, r.quality < cfg.min_quality_threshold →
       r ∉ validate_readings cfg readings) := by
  have key : ∀ r ∈ validate_readings cfg readings,
      cfg.min_quality_threshold ≤ r.quality := by
    intro r hr
    rw [validate_readings, List.mem_filterMap] at hr
    obtain ⟨a, _, ha⟩ := hr
    exact (validateReading_quality ha).1
  refine ⟨key, ?_⟩
  intro r hlow hr
  exact absurd (key r hr) (not_le.mpr hlow)

def lowQualityReading : Reading := mkReading "temperature" 25 50

/-- C2 witness: with the default threshold 80, a quality-50 reading is
dropped from the validated output. -/
theorem quality_gate_drops_low_quality_witness :
    defaultDAQConfig.min_quality_threshold = 80 ∧
    lowQualityReading.quality < defaultDAQConfig.min_quality_threshold ∧
    lowQualityReading ∉ validate_readings defaultDAQConfig
      [lowQualityReading, mkReading "temperature" 25 100] :=
  ⟨rfl, by decide,
   (quality_gate_drops_low_quality defaultDAQConfig
       [lowQualityReading, mkReading "temperature" 25 100]).2
     lowQualityReading (by decide)⟩

/-- C3: a reading that passes the quality gate but whose value violates
its range is retained by `validate_readings`, annotated OUT_OF_RANGE
(temperature/pressure) or HIGH_VIBRATION (vibration); a quality-passing
reading is never dropped, whatever its value. -/
theorem range_gate_retains_and_tags (cfg : DAQConfig)
    (readings : List Reading) (r : Reading) (hmem : r ∈ readings)
    (hq : ¬ r.quality < cfg.min_quality_threshold) :
    (r.sensor_type = "temperature" →
      ¬ (cfg.temperature_min ≤ r.value ∧ r.value ≤ cfg.temperature_max) →
      { r with anomaly := some "OUT_OF_RANGE" } ∈
        validate_readings cfg readings) ∧
    (r.sensor_type = "pressure" →
      ¬ (cfg.pressure_min ≤ r.value ∧ r.value ≤ cfg.pressure_max) →
      { r with anomaly := some "OUT_OF_RANGE" } ∈
        validate_readings cfg readings) ∧
    (r.sensor_type = "vibration" → cfg.vibration_max < r.value →
      { r with anomaly := some "HIGH_VIBRATION" } ∈
        validate_readings cfg readings) ∧
    (validateReading cfg r).isSome = true := by
  refine ⟨?_, ?_, ?_, ?_⟩
  · intro ht hrange
    refine List.mem_filterMap.mpr ⟨r, hmem, ?_⟩
    simp [validateReading, hq, ht, hrange]
  · intro ht hrange
    refine List.mem_filterMap.mpr ⟨r, hmem, ?_⟩
    simp [validateReading, hq, ht, hrange]
  · intro ht hval
    refine List.mem_filterMap.mpr ⟨r, hmem, ?_⟩
    simp [validateReading, hq, ht, hval]
  · unfold validateReading
    rw [if_neg hq]
    split
    · split <;> rfl
    · split
      · split <;> rfl
      · split
        · split <;> rfl
        · rfl

def hotReading : Reading := mkReading "temperature" 45 100

/-- C3 witness: a temperature reading of 45 with the default configured
max 40 is present in the validated output, tagged OUT_OF_RANGE. -/
theorem range_gate_retains_and_tags_witness :
    defaultDAQConfig.temperature_max = 40 ∧
    { hotReading with anomaly := some "OUT_OF_RANGE" } ∈
      validate_readings defaultDAQConfig [hotReading] :=
  ⟨rfl,
   (range_gate_retains_and_tags defaultDAQConfig [hotReading] hotReading
       (by simp) (by decide)).1 rfl (by norm_num [defaultDAQConfig, hotReading, mkReading])⟩

/-- C8: `calculate_moving_average` returns the mean of the last 5 values
of the sensor type, taken from history with the current value appended;
on the spec's example history 20,22,24,23,25 with new value 26 it
returns 24. -/
theorem moving_average_spec :
    (∀ (history : List Reading) (t : String) (current : ℚ),
      calculate_moving_average history t current =
        (lastN 5 (sensorHistoryValues history t ++ [current])).sum /
          ((lastN 5 (sensorHistoryValues history t ++ [current])).length : ℚ)) ∧
    calculate_moving_average historyC8 "temperature" 26 = 24 := by
  constructor
  · intro history t current
    simp only [calculate_moving_average]
    split
    · rfl
    · rename_i hzero
      push_neg at hzero
      simp only [lastN, List.length_drop, List.length_append,
        List.length_singleton] at hzero
      omega
  · norm_num [calculate_moving_average, historyC8, sensorHistoryValues,
      lastN, mkReading]

/-- The processing loop emits exactly one output per input. -/
theorem processLoop_length (history : List Reading) (ok : ℕ → Bool) :
    ∀ (i : ℕ) (rs : List Reading),
      (processLoop history ok i rs).length = rs.length := by
  intro i rs
  induction rs generalizing i with
  | nil => rfl
  | cons r rs ih => simp [processLoop, ih]

/-- Position-wise description of the processing loop. -/
theorem processLoop_get? (history : List Reading) (ok : ℕ → Bool) :
    ∀ (rs : List Reading) (j i : ℕ),
      (processLoop history ok j rs).get? i =
        (rs.get? i).map
          (fun r => if ok (j + i) then enrichReading history r else r) := by
  intro rs
  induction rs with
  | nil => intro j i; simp [processLoop]
  | cons r rs ih =>
    intro j i
    cases i with
    | zero => simp [processLoop]
    | succ i =>
      have hidx : j + 1 + i = j + (i + 1) := by omega
      simp only [processLoop, List.get?_cons_succ]
      rw [ih (j + 1) i, hidx]

/-- C9: `process_readings` returns a list of exactly the same length and
order as its input; at every position, a failed enrichment (oracle
`ok i = false`, the `except` branch) keeps the original unmodified
reading instead of dropping it. -/
theorem process_readings_keeps_length_order (history : List Reading)
    (ok : ℕ → Bool) (readings : List Reading) :
    (process_readings history ok readings).1.length = readings.length ∧
    ∀ i : ℕ, (process_readings history ok readings).1.get? i =
      (readings.get? i).map
        (fun r => if ok i then enrichReading history r else r) := by
  constructor
  · exact processLoop_length history ok 0 readings
  · intro i
    have h := processLoop_get? history ok readings 0 i
    simpa using h

/-- The overflow eviction never leaves the buffer over the limit. -/
theorem dropOverflow_length_le (cfg : DAQConfig) (l : List Reading) :
    (dropOverflow cfg l).length ≤ cfg.max_buffer_size := by
  unfold dropOverflow
  split
  · simp only [List.length_drop]
    omega
  · rename_i hl
    exact not_lt.mp hl

/-- A single `store_readings` call preserves the buffer bound, for any
configuration with `batch_size ≤ max_buffer_size`. -/
theorem store_readings_length_le (cfg : DAQConfig)
    (h : cfg.batch_size ≤ cfg.max_buffer_size) (ins : ℕ)
    (buf readings : List Reading) (hbuf : buf.length ≤ cfg.max_buffer_size) :
    (store_readings cfg ins buf readings).buffer.length ≤
      cfg.max_buffer_size := by
  simp only [store_readings]
  split_ifs with h1 h2 h3
  · exact hbuf
  · simp
  · exact dropOverflow_length_le cfg (buf ++ readings)
  · show (buf ++ readings).length ≤ cfg.max_buffer_size
    have hlt := not_le.mp h2
    omega

/-- The buffer bound is preserved along any call sequence. -/
theorem runStore_aux (cfg : DAQConfig)
    (h : cfg.batch_size ≤ cfg.max_buffer_size) :
    ∀ (calls : List (ℕ × List Reading)) (buf : List Reading),
      buf.length ≤ cfg.max_buffer_size →
      ((calls.foldl (fun b c => (store_readings cfg c.1 b c.2).buffer)
          buf).length ≤ cfg.max_buffer_size) := by
  intro calls
  induction calls with
  | nil => intro buf hbuf; exact hbuf
  | cons c cs ih =>
    intro buf hbuf
    exact ih _ (store_readings_length_le cfg h c.1 buf c.2 hbuf)

/-- C4: under a configuration with `batch_size ≤ max_buffer_size` (the
default one has 10 ≤ 1000), the buffer length never exceeds
`max_buffer_size` after any sequence of `store_readings` calls with
arbitrary insert outcomes, and a failed flush that leaves the buffer
over the limit evicts exactly the oldest excess entries. -/
theorem buffer_bounded_and_evicts_oldest (cfg : DAQConfig)
    (h : cfg.batch_size ≤ cfg.max_buffer_size) :
    (∀ calls : List (ℕ × List Reading),
      (runStore cfg calls).length ≤ cfg.max_buffer_size) ∧
    (∀ buf readings : List Reading, readings ≠ [] →
      cfg.batch_size ≤ (buf ++ readings).length →
      cfg.max_buffer_size < (buf ++ readings).length →
      (store_readings cfg 0 buf readings).buffer =
        (buf ++ readings).drop
          ((buf ++ readings).length - cfg.max_buffer_size)) := by
  constructor
  · intro calls
    exact runStore_aux cfg h calls [] (by simp)
  · intro buf readings hne hbatch hover
    simp only [store_readings]
    rw [if_neg hne, if_pos hbatch, if_neg (lt_irrefl 0)]
    show dropOverflow cfg (buf ++ readings) = _
    simp only [dropOverflow]
    rw [if_pos hover]

def cfgSmall : DAQConfig :=
  { defaultDAQConfig with batch_size := 2, max_buffer_size := 3 }

/-- C4 witness: the bound under the default configuration on a concrete
call sequence, and the exact oldest-first eviction at a concrete
overflowing failed flush. -/
theorem buffer_bounded_and_evicts_oldest_witness :
    (runStore defaultDAQConfig
        [(0, [hotReading, hotReading]), (1, [hotReading])]).length ≤ 1000 ∧
    (store_readings cfgSmall 0
        [hotReading, hotReading, hotReading] [hotReading]).buffer =
      ([hotReading, hotReading, hotReading] ++ [hotReading]).drop
        (([hotReading, hotReading, hotReading] ++ [hotReading]).length -
          cfgSmall.max_buffer_size) :=
  ⟨(buffer_bounded_and_evicts_oldest defaultDAQConfig (by decide)).1 _,
   (buffer_bounded_and_evicts_oldest cfgSmall (by decide)).2
     [hotReading, hotReading, hotReading] [hotReading]
     (by simp) (by decide) (by decide)⟩

def cfgC5 : DAQConfig :=
  { defaultDAQConfig with batch_size := 1, max_buffer_size := 5 }

/-- C5 counterexample: with the buffer already holding `batch_size`
entries (reachable after a failed flush) and an empty readings argument,
the post-append buffer length reaches `batch_size` but `store_readings`
returns success immediately and attempts no flush. -/
theorem flush_trigger_counterexample :
    cfgC5.batch_size ≤ ([hotReading] ++ ([] : List Reading)).length ∧
    (store_readings cfgC5 1 [hotReading] []).flushed = false ∧
    (store_readings cfgC5 1 [hotReading] []).ok = true ∧
    (store_readings cfgC5 1 [hotReading] []).buffer = [hotReading] :=
  ⟨by decide, rfl, rfl, rfl⟩

/-- C5 amended: for a NON-empty readings argument, `store_readings`
attempts a flush exactly when the post-append buffer length reaches
`batch_size`; past the threshold a positive insert count empties the
buffer and returns success, a zero insert count keeps the appended
buffer up to overflow eviction and returns failure; below the threshold
the appended buffer is kept with no flush. -/
theorem flush_trigger_spec (cfg : DAQConfig) (ins : ℕ)
    (buf readings : List Reading) (hne : readings ≠ []) :
    ((store_readings cfg ins buf readings).flushed = true ↔
      cfg.batch_size ≤ (buf ++ readings).length) ∧
    (cfg.batch_size ≤ (buf ++ readings).length →
      store_readings cfg ins buf readings =
        if 0 < ins then { buffer := [], ok := true, flushed := true }
        else { buffer := dropOverflow cfg (buf ++ readings), ok := false,
               flushed := true }) ∧
    (¬ cfg.batch_size ≤ (buf ++ readings).length →
      store_readings cfg ins buf readings =
        { buffer := buf ++ readings, ok := true, flushed := false }) := by
  unfold store_readings
  rw [if_neg hne]
  by_cases hb : cfg.batch_size ≤ (buf ++ readings).length
  · rw [if_pos hb]
    refine ⟨?_, fun _ => rfl, fun hnb => absurd hb hnb⟩
    constructor
    · intro _; exact hb
    · intro _; split <;> rfl
  · rw [if_neg hb]
    exact ⟨iff_of_false (by simp) hb, fun hb2 => absurd hb2 hb, fun _ => rfl⟩

/-- C5 witness: a concrete triggered, successful flush empties the
buffer. -/
theorem flush_trigger_spec_witness :
    store_readings cfgC5 1 [] [hotReading] =
      { buffer := [], ok := true, flushed := true } := by
  have h := (flush_trigger_spec cfgC5 1 [] [hotReading] (by simp)).2.1
    (by decide)
  simpa using h

def okReading : Reading := mkReading "temperature" 25 100

/-- C6 counterexample: a cycle that acquired a reading and validated it
still returns failure — and so increments the consecutive-failure
counter — when the storage step fails, refuting "incremented only when
no readings were acquired or all readings were rejected". -/
theorem failure_counter_counterexample :
    ([okReading] ≠ ([] : List Reading)) ∧
    validate_readings defaultDAQConfig [okReading] = [okReading] ∧
    acquisition_cycle_success defaultDAQConfig [okReading] false = false ∧
    (runIteration 0
        (acquisition_cycle_success defaultDAQConfig [okReading]
          false)).consecutive_failures = 1 :=
  ⟨by simp, rfl, rfl, rfl⟩

/-- C6 amended: a cycle succeeds iff readings were acquired, some
survived validation AND storage succeeded, so the counter is incremented
by any failed cycle including a storage failure; a successful cycle
resets the counter to 0; a failed cycle below the limit increments it;
the fifth consecutive failure triggers a cooldown sleep of at least 30
seconds and resets the counter to 0. -/
theorem failure_governor_spec (cfg : DAQConfig) (readings : List Reading)
    (storage_success : Bool) (f : ℕ) :
    (acquisition_cycle_success cfg readings storage_success = true ↔
      (readings ≠ [] ∧ validate_readings cfg readings ≠ [] ∧
        storage_success = true)) ∧
    (runIteration f true = { consecutive_failures := 0, cooldown_sleep := 0 }) ∧
    (f + 1 < max_consecutive_failures →
      runIteration f false =
        { consecutive_failures := f + 1, cooldown_sleep := 0 }) ∧
    (max_consecutive_failures ≤ f + 1 →
      (runIteration f false).consecutive_failures = 0 ∧
      30 ≤ (runIteration f false).cooldown_sleep) := by
  refine ⟨?_, rfl, ?_, ?_⟩
  · unfold acquisition_cycle_success
    split
    · rename_i hr
      simp [hr]
    · rename_i hr
      split
      · rename_i hv
        simp [hr, hv]
      · rename_i hv
        simp [hr, hv]
  · intro hlt
    simp only [runIteration]
    rw [if_neg (by simp), if_neg (not_le.mpr hlt)]
  · intro hge
    simp only [runIteration]
    rw [if_neg (by simp), if_pos hge]
    exact ⟨rfl, by norm_num⟩

/-- C6 witness: from 4 consecutive failures, one more failed cycle gives
the cooldown of 30 seconds and resets the counter. -/
theorem failure_governor_spec_witness :
    (runIteration 4 false).consecutive_failures = 0 ∧
    30 ≤ (runIteration 4 false).cooldown_sleep :=
  (failure_governor_spec defaultDAQConfig [] false 4).2.2.2 (by decide)

/-- C7: `connect` makes at most 5 attempts; the backoff schedule is
2.0·1.5^i; a first success at 0-based attempt k returns success after
k+1 attempts having slept exactly the first k delays; when all 5
attempts fail it returns failure (not an exception) after 5 attempts
and the full schedule 2.0, 3.0, 4.5, 6.75. -/
theorem connect_spec (succeeds : ℕ → Bool) :
    (connect succeeds).2.1 ≤ max_retries ∧
    (∀ i : ℕ, backoffDelays.get? i =
      if i < 4 then some (2 * (3/2) ^ i) else none) ∧
    (∀ k : ℕ, k < max_retries → succeeds k = true →
      (∀ j, j < k → succeeds j = false) →
      connect succeeds = (true, k + 1, backoffDelays.take k)) ∧
    ((∀ j, j < max_retries → succeeds j = false) →
      connect succeeds = (false, max_retries, backoffDelays)) := by
  refine ⟨?_, ?_, ?_, ?_⟩
  · cases h0 : succeeds 0 <;> cases h1 : succeeds 1 <;> cases h2 : succeeds 2 <;>
      cases h3 : succeeds 3 <;> cases h4 : succeeds 4 <;>
      norm_num [connect, connectGo, max_retries, h0, h1, h2, h3, h4]
  · intro i
    rcases i with _ | _ | _ | _ | i
    · norm_num [backoffDelays]
    · norm_num [backoffDelays]
    · norm_num [backoffDelays]
    · norm_num [backoffDelays]
    · have hc : ¬ (i + 1 + 1 + 1 + 1 < 4) := by omega
      simp [backoffDelays, hc]
  · intro k hk hsucc hprev
    have hk5 : k < 5 := hk
    interval_cases k
    · norm_num [connect, connectGo, max_retries, hsucc, backoffDelays]
    · have p0 := hprev 0 (by omega)
      norm_num [connect, connectGo, max_retries, hsucc, p0, backoffDelays]
    · have p0 := hprev 0 (by omega)
      have p1 := hprev 1 (by omega)
      norm_num [connect, connectGo, max_retries, hsucc, p0, p1, backoffDelays]
    · have p0 := hprev 0 (by omega)
      have p1 := hprev 1 (by omega)
      have p2 := hprev 2 (by omega)
      norm_num [connect, connectGo, max_retries, hsucc, p0, p1, p2,
        backoffDelays]
    · have p0 := hprev 0 (by omega)
      have p1 := hprev 1 (by omega)
      have p2 := hprev 2 (by omega)
      have p3 := hprev 3 (by omega)
      norm_num [connect, connectGo, max_retries, hsucc, p0, p1, p2, p3,
        backoffDelays]
  · intro hall
    have p0 := hall 0 (by decide)
    have p1 := hall 1 (by decide)
    have p2 := hall 2 (by decide)
    have p3 := hall 3 (by decide)
    have p4 := hall 4 (by decide)
    norm_num [connect, connectGo, max_retries, p0, p1, p2, p3, p4,
      backoffDelays]

/-- C7 witness: with the first two attempts failing and the third
succeeding, `connect` returns success after 3 attempts, having slept
2.0 s and then 3.0 s. -/
theorem connect_spec_witness :
    connect (fun k => decide (k = 2)) = (true, 3, backoffDelays.take 2) :=
  (connect_spec (fun k => decide (k = 2))).2.2.1 2 (by decide) (by decide)
    (by decide)

/-- C10: both success-rate computations are division-guarded: a zero
total gives rate 0, a positive total gives (successes / total) · 100. -/
theorem success_rate_guarded (s : OPCStats) (t : DAQStats) :
    (s.total_readings = 0 → get_statistics_success_rate s = 0) ∧
    (0 < s.total_readings → get_statistics_success_rate s =
      ((s.successful_readings : ℚ) / (s.total_readings : ℚ)) * 100) ∧
    (t.total_cycles = 0 → get_detailed_statistics_success_rate t = 0) ∧
    (0 < t.total_cycles → get_detailed_statistics_success_rate t =
      ((t.successful_cycles : ℚ) / (t.total_cycles : ℚ)) * 100) := by
  refine ⟨?_, ?_, ?_, ?_⟩ <;> intro h <;>
    simp [get_statistics_success_rate, get_detailed_statistics_success_rate, h]

/-- C10 witness: rate 0 at zero totals, 50% at 2 successes out of 4. -/
theorem success_rate_guarded_witness :
    get_statistics_success_rate
      { total_readings := 0, successful_readings := 0 } = 0 ∧
    get_detailed_statistics_success_rate
      { total_cycles := 4, successful_cycles := 2 } = ((2 : ℚ) / 4) * 100 := by
  refine ⟨(success_rate_guarded ⟨0, 0⟩ ⟨4, 2⟩).1 rfl, ?_⟩
  have h := (success_rate_guarded ⟨0, 0⟩ ⟨4, 2⟩).2.2.2 (by decide)
  simpa using h

def prevTempReading : Reading := mkReading "temperature" 20 100

def newTempReading : Reading := mkReading "temperature" 26 100

/-- C1 (against the code): at the spec's own input — detector history
whose immediately preceding temperature value is 20.0, incoming
temperature reading 26.0 — the absolute change 6.0 exceeds the
temperature threshold 5.0, yet the cycle produces no RAPID_CHANGE
anomaly (only HIGH_DEVIATION): `process_readings` extends `data_history`
with the current reading before `detect_anomalies` runs, so
`_detect_rapid_change` compares the current value with itself
(`previous_values[-1]` is the current reading) and computes change rate
0 there. -/
theorem rapid_change_never_fires :
    |newTempReading.value - prevTempReading.value| >
      rapidChangeThreshold "temperature" ∧
    (cycleDetect defaultDAQConfig [prevTempReading] [newTempReading]).filter
      (fun a => a.anomaly_type = "RAPID_CHANGE") = [] ∧
    (cycleDetect defaultDAQConfig [prevTempReading] [newTempReading]).map
      (fun a => a.anomaly_type) = ["HIGH_DEVIATION"] := by
  refine ⟨?_, ?_, ?_⟩
  · norm_num [prevTempReading, newTempReading, mkReading, rapidChangeThreshold]
  · norm_num [cycleDetect, validate_readings, validateReading,
      process_readings, processLoop, trimHistory, enrichReading,
      calculate_moving_average, sensorHistoryValues, lastN,
      detect_anomalies, anomaliesFor, detect_rapid_change,
      rapidChangeThreshold, calculate_severity, prevTempReading,
      newTempReading, mkReading, defaultDAQConfig]
    decide
  · norm_num [cycleDetect, validate_readings, validateReading,
      process_readings, processLoop, trimHistory, enrichReading,
      calculate_moving_average, sensorHistoryValues, lastN,
      detect_anomalies, anomaliesFor, detect_rapid_change,
      rapidChangeThreshold, calculate_severity, prevTempReading,
      newTempReading, mkReading, defaultDAQConfig]

end DAQ
